import Mathlib

/-
Shallow embedding of the ISO/IEC 27001 audit compliance tool (src/app.py):
a Flask application with a static control catalogue (ISO_CONTROLS), an
in-memory interaction log (audit_data with "assessments" and "chat_history"),
and four routes: GET /api/controls, POST /api/assess, POST /api/chat and
POST /api/gap-analysis.

Modelling conventions:
- Python dicts that preserve insertion order are association lists.
- A JSON request body is either malformed (request.json raises), parses to a
  non-dict value (data.get raises AttributeError), or is a dict of string
  fields whose values may be null (data.get returns None for absent keys and
  for JSON null alike).
- The Groq client global is a Bool in Env (true iff GROQ_API_KEY was present
  at start, in which case the client object exists); the outcome of the one
  external completion call a handler may make is Env.callResult.
- A handler returns a HandlerResult: the HTTP outcome (a response with a
  status and a JSON envelope, or an exception that propagates out of the
  handler body), the new server state, and the adapter invocation it made,
  if any.  Attribute access on a None client raises before any network call,
  so in that branch the recorded adapter call is none.
- Exception message texts produced by the Python runtime or by Flask
  (AttributeError texts, the BadRequest text) are modelled as fixed strings;
  no theorem depends on their exact wording except that the AttributeError
  text differs from the explicit configuration message in assess_control.
-/

namespace Iso27001

/-- A catalogue entry value: name and category of a control (app.py ISO_CONTROLS values). -/
structure Control where
  name : String
  category : String
deriving DecidableEq

/-- The static catalogue ISO_CONTROLS of app.py lines 38-48, in insertion order. -/
def ISO_CONTROLS : List (String × Control) :=
  [("A.5.1", ⟨"Policies for information security", "Organizational"⟩),
   ("A.5.2", ⟨"Information security roles and responsibilities", "Organizational"⟩),
   ("A.6.1", ⟨"Screening", "People"⟩),
   ("A.6.2", ⟨"Terms and conditions of employment", "People"⟩),
   ("A.7.1", ⟨"Physical security perimeters", "Physical"⟩),
   ("A.7.2", ⟨"Physical entry", "Physical"⟩),
   ("A.8.1", ⟨"User endpoint devices", "Technological"⟩),
   ("A.8.2", ⟨"Privileged access rights", "Technological"⟩),
   ("A.8.3", ⟨"Information access restriction", "Technological"⟩)]

/-- A record appended to audit_data["assessments"] (app.py lines 581-585). -/
structure AssessmentRecord where
  control_id : String
  timestamp : String
  assessment : String
deriving DecidableEq

/-- A record appended to audit_data["chat_history"] (app.py lines 619-623).
The user text is an Option because data.get("message") may yield None. -/
structure ChatTurn where
  timestamp : String
  user : Option String
  assistant : String
deriving DecidableEq

/-- The mutable module-level state of app.py: the catalogue dict and the two
log lists of audit_data. -/
structure ServerState where
  controls : List (String × Control)
  assessments : List AssessmentRecord
  chat_history : List ChatTurn
deriving DecidableEq

/-- The state at process start: the literal catalogue and empty logs. -/
def initialState : ServerState := ⟨ISO_CONTROLS, [], []⟩

/-- A POST request body as seen through Flask request.json:
malformed (parsing raises), a non-dict JSON value (attribute access .get
raises), or a JSON object with optional string fields. -/
inductive ReqBody where
  | malformed : ReqBody
  | nonDict : ReqBody
  | dict : List (String × Option String) → ReqBody
deriving DecidableEq

/-- data.get(key): None when the key is absent or its value is JSON null. -/
def getField (fields : List (String × Option String)) (key : String) : Option String :=
  match fields.lookup key with
  | none => none
  | some v => v

/-- Interpolation of a Python value into an f-string: None prints as "None". -/
def pyShowOpt : Option String → String
  | none => "None"
  | some s => s

/-- One message of the messages list passed to client.chat.completions.create.
Content is an Option because chat passes data.get("message") through. -/
structure Message where
  role : String
  content : Option String
deriving DecidableEq

/-- The argument tuple of a client.chat.completions.create invocation. -/
structure AdapterCall where
  messages : List Message
  model : String
  temperature : ℚ
  max_tokens : Nat
deriving DecidableEq

/-- Outcome of the external completion call: the assistant text, or the
message of the exception the call raised. -/
inductive CallResult where
  | success : String → CallResult
  | failure : String → CallResult
deriving DecidableEq

/-- Process environment: whether GROQ_API_KEY was present (and hence the
client global is a Groq object rather than None), and what the external
service would answer if actually called. -/
structure Env where
  hasKey : Bool
  callResult : CallResult
deriving DecidableEq

/-- A JSON response body: a single success payload field, or an error envelope. -/
inductive Envelope where
  | payload : String → String → Envelope
  | error : String → Envelope
deriving DecidableEq

/-- What a handler call produces at the HTTP boundary: a returned response
(status code and JSON envelope), or an exception escaping the handler body. -/
inductive Outcome where
  | response : Nat → Envelope → Outcome
  | raised : String → Outcome
deriving DecidableEq

/-- Result of running one handler: outcome, new server state, and the
adapter invocation performed, if any. -/
structure HandlerResult where
  outcome : Outcome
  state : ServerState
  call : Option AdapterCall
deriving DecidableEq

/-- Text of the exception Flask request.json raises on an unparseable body. -/
def parseFailureMsg : String :=
  "400 Bad Request: Failed to decode JSON object"

/-- Text of the AttributeError raised by data.get when request.json is not a dict. -/
def getAttrFailureMsg : String :=
  "object has no attribute \x27get\x27"

/-- The explicit configuration error message of assess_control (app.py line 561). -/
def configErrorMsg : String :=
  "Groq API key not configured. Please set GROQ_API_KEY in .env file"

/-- Text of the AttributeError raised by client.chat when client is None. -/
def noneTypeAttrMsg : String :=
  "\x27NoneType\x27 object has no attribute \x27chat\x27"

/-- The assessment prompt template of app.py lines 540-551. -/
def assessPrompt (control_id : String) (c : Control) : String :=
  "You are an ISO/IEC 27001:2022 audit expert. Provide a detailed assessment guide for:\n\nControl: "
    ++ control_id ++ " - " ++ c.name ++ "\nCategory: " ++ c.category
    ++ "\n\nPlease provide:\n1. What this control requires (2-3 sentences)\n2. Key implementation steps (3-5 bullet points)\n3. Common audit evidence needed\n4. Typical gaps found during audits\n\nKeep the response concise and practical."

/-- The fixed system prompt of the chat handler (app.py lines 601-604). -/
def chatSystemPrompt : String :=
  "You are an expert ISO/IEC 27001:2022 compliance consultant. \nYou help organizations understand and implement information security controls.\nProvide clear, practical advice focused on audit readiness and compliance.\nBe concise but thorough."

/-- The gap-analysis prompt template of app.py lines 641-654. -/
def gapPrompt (control_id : String) (c : Control) (description : Option String) : String :=
  "You are an ISO 27001 auditor performing a gap analysis.\n\nControl: "
    ++ control_id ++ " - " ++ c.name ++ "\nCurrent Implementation:\n"
    ++ pyShowOpt description
    ++ "\n\nProvide a detailed gap analysis including:\n1. Compliance Status (Compliant/Partial/Non-Compliant)\n2. Strengths in current implementation\n3. Identified gaps and weaknesses\n4. Specific recommendations for improvement\n5. Priority level (High/Medium/Low)\n\nBe specific and actionable."

/-- POST /api/assess (app.py lines 524-594).  The whole body is inside
try/except Exception, so parsing and attribute errors become 500 responses
with the "Error in assess_control: " prefix.  Control-id validation (400)
precedes the client-None configuration check (500), which precedes the
adapter call.  On success one AssessmentRecord is appended. -/
def assess_control (env : Env) (now : String) (body : ReqBody) (st : ServerState) :
    HandlerResult :=
  match body with
  | .malformed =>
      ⟨.response 500 (.error ("Error in assess_control: " ++ parseFailureMsg)), st, none⟩
  | .nonDict =>
      ⟨.response 500 (.error ("Error in assess_control: " ++ getAttrFailureMsg)), st, none⟩
  | .dict fields =>
    match getField fields "control_id" with
    | none =>
        ⟨.response 400 (.error ("Invalid control ID: " ++ pyShowOpt none)), st, none⟩
    | some cid =>
      match st.controls.lookup cid with
      | none =>
          ⟨.response 400 (.error ("Invalid control ID: " ++ cid)), st, none⟩
      | some control =>
        if env.hasKey then
          let call : AdapterCall :=
            ⟨[⟨"user", some (assessPrompt cid control)⟩],
             "llama-3.3-70b-versatile", 7/10, 1024⟩
          match env.callResult with
          | .success text =>
              ⟨.response 200 (.payload "assessment" text),
               { st with assessments := st.assessments ++ [⟨cid, now, text⟩] },
               some call⟩
          | .failure msg =>
              ⟨.response 500 (.error ("Error in assess_control: " ++ msg)), st, some call⟩
        else
          ⟨.response 500 (.error configErrorMsg), st, none⟩

/-- POST /api/chat (app.py lines 596-628).  request.json and data.get run
before the try block, so their exceptions propagate out of the handler.
There is no client-None check: with a missing key the attribute access
client.chat raises inside the try block, before any network call, and is
returned as a 500 with the raw AttributeError text.  On success one ChatTurn
is appended. -/
def chat (env : Env) (now : String) (body : ReqBody) (st : ServerState) : HandlerResult :=
  match body with
  | .malformed => ⟨.raised parseFailureMsg, st, none⟩
  | .nonDict => ⟨.raised getAttrFailureMsg, st, none⟩
  | .dict fields =>
    let user_message := getField fields "message"
    if env.hasKey then
      let call : AdapterCall :=
        ⟨[⟨"system", some chatSystemPrompt⟩, ⟨"user", user_message⟩],
         "llama-3.3-70b-versatile", 7/10, 1024⟩
      match env.callResult with
      | .success text =>
          ⟨.response 200 (.payload "response" text),
           { st with chat_history := st.chat_history ++ [⟨now, user_message, text⟩] },
           some call⟩
      | .failure msg => ⟨.response 500 (.error msg), st, some call⟩
    else
      ⟨.response 500 (.error noneTypeAttrMsg), st, none⟩

/-- POST /api/gap-analysis (app.py lines 630-669).  request.json, data.get
and the control-id validation run before the try block; parsing and
attribute errors propagate out of the handler.  No client-None check, same
AttributeError-as-500 behaviour as chat.  Never mutates the state. -/
def gap_analysis (env : Env) (body : ReqBody) (st : ServerState) : HandlerResult :=
  match body with
  | .malformed => ⟨.raised parseFailureMsg, st, none⟩
  | .nonDict => ⟨.raised getAttrFailureMsg, st, none⟩
  | .dict fields =>
    match getField fields "control_id" with
    | none => ⟨.response 400 (.error "Invalid control ID"), st, none⟩
    | some cid =>
      match st.controls.lookup cid with
      | none => ⟨.response 400 (.error "Invalid control ID"), st, none⟩
      | some control =>
        if env.hasKey then
          let call : AdapterCall :=
            ⟨[⟨"user", some (gapPrompt cid control (getField fields "description"))⟩],
             "llama-3.1-70b-versatile", 1/2, 1500⟩
          match env.callResult with
          | .success text => ⟨.response 200 (.payload "analysis" text), st, some call⟩
          | .failure msg => ⟨.response 500 (.error msg), st, some call⟩
        else
          ⟨.response 500 (.error noneTypeAttrMsg), st, none⟩

/-- One element of the JSON list returned by GET /api/controls. -/
structure ControlEntry where
  id : String
  name : String
  category : String
deriving DecidableEq

/-- GET /api/controls (app.py lines 519-522): the dict comprehension over
ISO_CONTROLS.items() in insertion order. -/
def get_controls (st : ServerState) : List ControlEntry :=
  st.controls.map (fun p => ⟨p.1, p.2.name, p.2.category⟩)

/-- One server transition: some handler runs on some request. -/
inductive Step : ServerState → ServerState → Prop where
  | stepAssess (env : Env) (now : String) (body : ReqBody) (st : ServerState) :
      Step st (assess_control env now body st).state
  | stepChat (env : Env) (now : String) (body : ReqBody) (st : ServerState) :
      Step st (chat env now body st).state
  | stepGap (env : Env) (body : ReqBody) (st : ServerState) :
      Step st (gap_analysis env body st).state

/-- States reachable from process start by any sequence of handler runs. -/
def Reachable (st : ServerState) : Prop :=
  Relation.ReflTransGen Step initialState st

/-- Whether an Outcome is a returned HTTP response (as opposed to an
exception escaping the handler). -/
def isResponse : Outcome → Bool
  | .response _ _ => true
  | .raised _ => false

/-! Helper lemmas: case analyses of the three handlers. -/

lemma assess_state_cases (env : Env) (now : String) (body : ReqBody) (st : ServerState) :
    (assess_control env now body st).state = st ∨
    ∃ cid text, (st.controls.lookup cid).isSome ∧
      (assess_control env now body st).state =
        { st with assessments := st.assessments ++ [⟨cid, now, text⟩] } := by
  rcases body with _ | _ | fields
  · exact Or.inl rfl
  · exact Or.inl rfl
  · dsimp only [assess_control]
    split
    · exact Or.inl rfl
    · split
      · exact Or.inl rfl
      · split
        · split
          · refine Or.inr ⟨_, _, ?_, rfl⟩
            simp [*]
          · exact Or.inl rfl
        · exact Or.inl rfl

lemma chat_state_cases (env : Env) (now : String) (body : ReqBody) (st : ServerState) :
    (chat env now body st).state = st ∨
    ∃ msg text, (chat env now body st).state =
      { st with chat_history := st.chat_history ++ [⟨now, msg, text⟩] } := by
  rcases body with _ | _ | fields
  · exact Or.inl rfl
  · exact Or.inl rfl
  · dsimp only [chat]
    split
    · split
      · exact Or.inr ⟨_, _, rfl⟩
      · exact Or.inl rfl
    · exact Or.inl rfl

lemma gap_state_eq (env : Env) (body : ReqBody) (st : ServerState) :
    (gap_analysis env body st).state = st := by
  rcases body with _ | _ | fields
  · rfl
  · rfl
  · dsimp only [gap_analysis]
    split
    · rfl
    · split
      · rfl
      · split
        · split <;> rfl
        · rfl

lemma assess_outcome_cases (env : Env) (now : String) (body : ReqBody) (st : ServerState) :
    (∃ text, (assess_control env now body st).outcome = .response 200 (.payload "assessment" text)) ∨
    (∃ msg, (assess_control env now body st).outcome = .response 400 (.error msg)) ∨
    (∃ msg, (assess_control env now body st).outcome = .response 500 (.error msg)) := by
  rcases body with _ | _ | fields
  · exact Or.inr (Or.inr ⟨_, rfl⟩)
  · exact Or.inr (Or.inr ⟨_, rfl⟩)
  · dsimp only [assess_control]
    split
    · exact Or.inr (Or.inl ⟨_, rfl⟩)
    · split
      · exact Or.inr (Or.inl ⟨_, rfl⟩)
      · split
        · split
          · exact Or.inl ⟨_, rfl⟩
          · exact Or.inr (Or.inr ⟨_, rfl⟩)
        · exact Or.inr (Or.inr ⟨_, rfl⟩)

lemma chat_outcome_cases (env : Env) (now : String) (fields : List (String × Option String))
    (st : ServerState) :
    (∃ text, (chat env now (.dict fields) st).outcome = .response 200 (.payload "response" text)) ∨
    (∃ msg, (chat env now (.dict fields) st).outcome = .response 500 (.error msg)) := by
  dsimp only [chat]
  split
  · split
    · exact Or.inl ⟨_, rfl⟩
    · exact Or.inr ⟨_, rfl⟩
  · exact Or.inr ⟨_, rfl⟩

lemma gap_outcome_cases (env : Env) (fields : List (String × Option String))
    (st : ServerState) :
    (∃ text, (gap_analysis env (.dict fields) st).outcome = .response 200 (.payload "analysis" text)) ∨
    (∃ msg, (gap_analysis env (.dict fields) st).outcome = .response 400 (.error msg)) ∨
    (∃ msg, (gap_analysis env (.dict fields) st).outcome = .response 500 (.error msg)) := by
  dsimp only [gap_analysis]
  split
  · exact Or.inr (Or.inl ⟨_, rfl⟩)
  · split
    · exact Or.inr (Or.inl ⟨_, rfl⟩)
    · split
      · split
        · exact Or.inl ⟨_, rfl⟩
        · exact Or.inr (Or.inr ⟨_, rfl⟩)
      · exact Or.inr (Or.inr ⟨_, rfl⟩)

lemma assess_call_cases (env : Env) (now : String) (body : ReqBody) (st : ServerState) :
    (assess_control env now body st).call = none ∨
    ∃ p, (assess_control env now body st).call =
      some ⟨[⟨"user", some p⟩], "llama-3.3-70b-versatile", 7/10, 1024⟩ := by
  rcases body with _ | _ | fields
  · exact Or.inl rfl
  · exact Or.inl rfl
  · dsimp only [assess_control]
    split
    · exact Or.inl rfl
    · split
      · exact Or.inl rfl
      · split
        · split
          · exact Or.inr ⟨_, rfl⟩
          · exact Or.inr ⟨_, rfl⟩
        · exact Or.inl rfl

lemma gap_call_cases (env : Env) (body : ReqBody) (st : ServerState) :
    (gap_analysis env body st).call = none ∨
    ∃ p, (gap_analysis env body st).call =
      some ⟨[⟨"user", some p⟩], "llama-3.1-70b-versatile", 1/2, 1500⟩ := by
  rcases body with _ | _ | fields
  · exact Or.inl rfl
  · exact Or.inl rfl
  · dsimp only [gap_analysis]
    split
    · exact Or.inl rfl
    · split
      · exact Or.inl rfl
      · split
        · split
          · exact Or.inr ⟨_, rfl⟩
          · exact Or.inr ⟨_, rfl⟩
        · exact Or.inl rfl

lemma assess_call_none (env : Env) (now : String) (body : ReqBody) (st : ServerState)
    (hkey : env.hasKey = false) : (assess_control env now body st).call = none := by
  rcases body with _ | _ | fields
  · rfl
  · rfl
  · dsimp only [assess_control]
    split
    · rfl
    · split
      · rfl
      · rw [hkey]
        rfl

lemma chat_call_none (env : Env) (now : String) (body : ReqBody) (st : ServerState)
    (hkey : env.hasKey = false) : (chat env now body st).call = none := by
  rcases body with _ | _ | fields
  · rfl
  · rfl
  · dsimp only [chat]
    rw [hkey]
    rfl

lemma gap_call_none (env : Env) (body : ReqBody) (st : ServerState)
    (hkey : env.hasKey = false) : (gap_analysis env body st).call = none := by
  rcases body with _ | _ | fields
  · rfl
  · rfl
  · dsimp only [gap_analysis]
    split
    · rfl
    · split
      · rfl
      · rw [hkey]
        rfl

lemma assess_disabled_valid (env : Env) (now : String) (fields : List (String × Option String))
    (st : ServerState) (cid : String) (c : Control) (hkey : env.hasKey = false)
    (hcid : getField fields "control_id" = some cid) (hc : st.controls.lookup cid = some c) :
    (assess_control env now (.dict fields) st).outcome = .response 500 (.error configErrorMsg) := by
  simp only [assess_control, hcid, hc, hkey]
  rfl

lemma chat_disabled (env : Env) (now : String) (fields : List (String × Option String))
    (st : ServerState) (hkey : env.hasKey = false) :
    (chat env now (.dict fields) st).outcome = .response 500 (.error noneTypeAttrMsg) := by
  dsimp only [chat]
  rw [hkey]
  rfl

lemma gap_disabled_valid (env : Env) (fields : List (String × Option String))
    (st : ServerState) (cid : String) (c : Control) (hkey : env.hasKey = false)
    (hcid : getField fields "control_id" = some cid) (hc : st.controls.lookup cid = some c) :
    (gap_analysis env (.dict fields) st).outcome = .response 500 (.error noneTypeAttrMsg) := by
  simp only [gap_analysis, hcid, hc, hkey]
  rfl

/-! Helper lemmas: reachability. -/

lemma step_controls_eq {s t : ServerState} (h : Step s t) : t.controls = s.controls := by
  cases h with
  | stepAssess env now body =>
    rcases assess_state_cases env now body s with h1 | ⟨cid, text, _, h1⟩ <;> rw [h1]
  | stepChat env now body =>
    rcases chat_state_cases env now body s with h1 | ⟨msg, text, h1⟩ <;> rw [h1]
  | stepGap env body => rw [gap_state_eq]

lemma reachable_controls_eq {s : ServerState}
    (h : Relation.ReflTransGen Step initialState s) : s.controls = ISO_CONTROLS := by
  induction h with
  | refl => rfl
  | tail _ hstep ih => rw [step_controls_eq hstep, ih]

lemma reachable_assessments_valid {s : ServerState}
    (h : Relation.ReflTransGen Step initialState s) :
    ∀ r ∈ s.assessments, (ISO_CONTROLS.lookup r.control_id).isSome := by
  induction h with
  | refl => intro r hr; simp [initialState] at hr
  | tail hab hstep ih =>
    rename_i b c
    cases hstep with
    | stepAssess env now body =>
      rcases assess_state_cases env now body b with h1 | ⟨cid, text, hlook, h1⟩
      · rw [h1]; exact ih
      · rw [h1]
        intro r hr
        rcases List.mem_append.mp hr with hr | hr
        · exact ih r hr
        · have hr1 : r = ⟨cid, now, text⟩ := by simpa using hr
          subst hr1
          rw [reachable_controls_eq hab] at hlook
          exact hlook
    | stepChat env now body =>
      rcases chat_state_cases env now body b with h1 | ⟨msg, text, h1⟩ <;> rw [h1] <;> exact ih
    | stepGap env body => rw [gap_state_eq]; exact ih


/-! Additional helper: the invalid-control-id branch of assess_control. -/

lemma assess_invalid_id (env : Env) (now : String) (fields : List (String × Option String))
    (st : ServerState)
    (hinv : ∀ cid, getField fields "control_id" = some cid → st.controls.lookup cid = none) :
    (assess_control env now (.dict fields) st).outcome
      = .response 400 (.error ("Invalid control ID: " ++ pyShowOpt (getField fields "control_id"))) ∧
    (assess_control env now (.dict fields) st).state = st ∧
    (assess_control env now (.dict fields) st).call = none := by
  rcases hf : getField fields "control_id" with _ | cid
  · refine ⟨?_, ?_, ?_⟩ <;> simp only [assess_control, hf]
  · have hl := hinv cid hf
    refine ⟨?_, ?_, ?_⟩ <;> simp only [assess_control, hf, hl] <;> rfl

/-! The claims. -/

/-- C1, counterexample: with the adapter disabled (client is None) and the
invalid control id Z.9.9, POST /api/assess returns HTTP 400, not HTTP 500:
the control-id validation precedes the configuration check, refuting the
part "regardless of whether the supplied control_id is valid or invalid". -/
theorem c1_counterexample :
    (assess_control ⟨false, .failure "boom"⟩ "2024-01-01T00:00:00"
        (.dict [("control_id", some "Z.9.9")]) initialState).outcome
      = .response 400 (.error "Invalid control ID: Z.9.9") ∧ (400 : Nat) ≠ 500 :=
  ⟨rfl, by decide⟩

/-- C1, amended: while the adapter is disabled, every assess request whose
control_id is a key of the catalogue gets HTTP 500 with the configuration
message; a request whose control_id is not a key gets the HTTP 400
validation error instead. -/
theorem c1_assess_disabled (env : Env) (now : String)
    (fields : List (String × Option String)) (st : ServerState)
    (hkey : env.hasKey = false) :
    (∀ cid c, getField fields "control_id" = some cid → st.controls.lookup cid = some c →
      (assess_control env now (.dict fields) st).outcome
        = .response 500 (.error configErrorMsg)) ∧
    ((∀ cid, getField fields "control_id" = some cid → st.controls.lookup cid = none) →
      ∃ msg, (assess_control env now (.dict fields) st).outcome
        = .response 400 (.error msg)) := by
  constructor
  · intro cid c hcid hc
    exact assess_disabled_valid env now fields st cid c hkey hcid hc
  · intro hinv
    exact ⟨_, (assess_invalid_id env now fields st hinv).1⟩

/-- C1, witness: a disabled-adapter assess call on the valid id A.5.1
returns HTTP 500 with the configuration message. -/
theorem c1_witness :
    (assess_control ⟨false, .failure "x"⟩ "t" (.dict [("control_id", some "A.5.1")])
        initialState).outcome = .response 500 (.error configErrorMsg) :=
  (c1_assess_disabled ⟨false, .failure "x"⟩ "t" [("control_id", some "A.5.1")] initialState
      rfl).1 "A.5.1" ⟨"Policies for information security", "Organizational"⟩ rfl rfl

/-- C2, counterexample: a malformed body sent to POST /api/chat makes
request.json raise before the try block, so the exception escapes the chat
handler instead of being converted to a JSON error envelope. -/
theorem c2_counterexample :
    (chat ⟨true, .success "ok"⟩ "t" .malformed initialState).outcome
      = .raised parseFailureMsg ∧
    isResponse (chat ⟨true, .success "ok"⟩ "t" .malformed initialState).outcome = false :=
  ⟨rfl, rfl⟩

/-- C2, amended: assess_control catches every error (its whole body sits in
try/except) and always returns a response whose non-200 form is an error
envelope; chat and gap_analysis return a response for every body that parses
as a JSON object, and every non-200 response of theirs is likewise an error
envelope, but for a body whose parsing raises (malformed JSON) or whose
field extraction raises (a non-dict JSON value) the exception propagates out
of the chat and gap_analysis handlers, which run those steps before their
try blocks. -/
theorem c2_error_envelope :
    (∀ env now body st, ∃ s e, (assess_control env now body st).outcome = .response s e) ∧
    (∀ env now body st s e, (assess_control env now body st).outcome = .response s e →
        s ≠ 200 → ∃ msg, e = .error msg) ∧
    (∀ env now fields st, ∃ s e, (chat env now (.dict fields) st).outcome = .response s e) ∧
    (∀ env now fields st s e, (chat env now (.dict fields) st).outcome = .response s e →
        s ≠ 200 → ∃ msg, e = .error msg) ∧
    (∀ env fields st, ∃ s e, (gap_analysis env (.dict fields) st).outcome = .response s e) ∧
    (∀ env fields st s e, (gap_analysis env (.dict fields) st).outcome = .response s e →
        s ≠ 200 → ∃ msg, e = .error msg) ∧
    (∀ env now st, (chat env now .malformed st).outcome = .raised parseFailureMsg ∧
        (chat env now .nonDict st).outcome = .raised getAttrFailureMsg) ∧
    (∀ env st, (gap_analysis env .malformed st).outcome = .raised parseFailureMsg ∧
        (gap_analysis env .nonDict st).outcome = .raised getAttrFailureMsg) := by
  refine ⟨?_, ?_, ?_, ?_, ?_, ?_, ?_, ?_⟩
  · intro env now body st
    rcases assess_outcome_cases env now body st with ⟨t, h⟩ | ⟨m, h⟩ | ⟨m, h⟩ <;> exact ⟨_, _, h⟩
  · intro env now body st s e h hne
    rcases assess_outcome_cases env now body st with ⟨t, h2⟩ | ⟨m, h2⟩ | ⟨m, h2⟩ <;> rw [h] at h2
    · injection h2 with h3 h4
      exact absurd h3 hne
    · injection h2 with h3 h4
      exact ⟨m, h4⟩
    · injection h2 with h3 h4
      exact ⟨m, h4⟩
  · intro env now fields st
    rcases chat_outcome_cases env now fields st with ⟨t, h⟩ | ⟨m, h⟩ <;> exact ⟨_, _, h⟩
  · intro env now fields st s e h hne
    rcases chat_outcome_cases env now fields st with ⟨t, h2⟩ | ⟨m, h2⟩ <;> rw [h] at h2
    · injection h2 with h3 h4
      exact absurd h3 hne
    · injection h2 with h3 h4
      exact ⟨m, h4⟩
  · intro env fields st
    rcases gap_outcome_cases env fields st with ⟨t, h⟩ | ⟨m, h⟩ | ⟨m, h⟩ <;> exact ⟨_, _, h⟩
  · intro env fields st s e h hne
    rcases gap_outcome_cases env fields st with ⟨t, h2⟩ | ⟨m, h2⟩ | ⟨m, h2⟩ <;> rw [h] at h2
    · injection h2 with h3 h4
      exact absurd h3 hne
    · injection h2 with h3 h4
      exact ⟨m, h4⟩
    · injection h2 with h3 h4
      exact ⟨m, h4⟩
  · intro env now st
    exact ⟨rfl, rfl⟩
  · intro env st
    exact ⟨rfl, rfl⟩

/-- C2, witness: the amended theorem evaluated at concrete inputs; a
malformed assess body still yields a response whose 500 envelope is an error
envelope, a chat 500 response (disabled client) is an error envelope, and
malformed or non-dict bodies raise out of chat and gap_analysis. -/
theorem c2_witness :
    (∃ s e, (assess_control ⟨true, .success "ok"⟩ "t" .malformed initialState).outcome
        = .response s e) ∧
    (∃ msg, Envelope.error ("Error in assess_control: " ++ parseFailureMsg) = .error msg) ∧
    (∃ msg, Envelope.error noneTypeAttrMsg = .error msg) ∧
    (chat ⟨true, .success "ok"⟩ "t" .malformed initialState).outcome
      = .raised parseFailureMsg ∧
    (gap_analysis ⟨true, .success "ok"⟩ .nonDict initialState).outcome
      = .raised getAttrFailureMsg :=
  ⟨c2_error_envelope.1 ⟨true, .success "ok"⟩ "t" .malformed initialState,
   c2_error_envelope.2.1 ⟨true, .success "ok"⟩ "t" .malformed initialState 500
     (.error ("Error in assess_control: " ++ parseFailureMsg)) rfl (by decide),
   c2_error_envelope.2.2.2.1 ⟨false, .success "ok"⟩ "t" [] initialState 500
     (.error noneTypeAttrMsg) rfl (by decide),
   (c2_error_envelope.2.2.2.2.2.2.1 ⟨true, .success "ok"⟩ "t" initialState).1,
   (c2_error_envelope.2.2.2.2.2.2.2 ⟨true, .success "ok"⟩ initialState).2⟩

/-- C3, counterexample: with the credential absent, POST /api/chat does not
fail with the configuration message: the None client raises AttributeError,
returned as HTTP 500 with the raw AttributeError text, which differs from
the configuration-related message used by assess_control. -/
theorem c3_counterexample :
    (chat ⟨false, .success "hi"⟩ "t" (.dict [("message", some "What is A.8.2?")])
        initialState).outcome = .response 500 (.error noneTypeAttrMsg) ∧
    noneTypeAttrMsg ≠ configErrorMsg :=
  ⟨rfl, by decide⟩

/-- C3, amended: with the credential absent no handler ever invokes the
adapter (no network access), and the calls fail immediately: assess with the
explicit configuration message, chat and gap_analysis with an HTTP 500
carrying the generic AttributeError text instead of a configuration-related
message. -/
theorem c3_disabled_no_network (env : Env) (now : String) (body : ReqBody) (st : ServerState)
    (hkey : env.hasKey = false) :
    (assess_control env now body st).call = none ∧
    (chat env now body st).call = none ∧
    (gap_analysis env body st).call = none ∧
    (∀ fields, (chat env now (.dict fields) st).outcome
      = .response 500 (.error noneTypeAttrMsg)) ∧
    (∀ fields cid c, getField fields "control_id" = some cid →
       st.controls.lookup cid = some c →
       (assess_control env now (.dict fields) st).outcome
           = .response 500 (.error configErrorMsg) ∧
       (gap_analysis env (.dict fields) st).outcome
           = .response 500 (.error noneTypeAttrMsg)) :=
  ⟨assess_call_none env now body st hkey,
   chat_call_none env now body st hkey,
   gap_call_none env body st hkey,
   fun fields => chat_disabled env now fields st hkey,
   fun fields cid c hcid hc =>
     ⟨assess_disabled_valid env now fields st cid c hkey hcid hc,
      gap_disabled_valid env fields st cid c hkey hcid hc⟩⟩

/-- C3, witness: the amended theorem evaluated with the key absent and the
valid id A.8.1: no adapter call is recorded and the three handlers return
their respective 500 messages. -/
theorem c3_witness :
    (assess_control ⟨false, .failure "x"⟩ "t" (.dict [("control_id", some "A.8.1")])
        initialState).call = none ∧
    (chat ⟨false, .failure "x"⟩ "t" (.dict [("control_id", some "A.8.1")])
        initialState).outcome = .response 500 (.error noneTypeAttrMsg) ∧
    (assess_control ⟨false, .failure "x"⟩ "t" (.dict [("control_id", some "A.8.1")])
        initialState).outcome = .response 500 (.error configErrorMsg) ∧
    (gap_analysis ⟨false, .failure "x"⟩ (.dict [("control_id", some "A.8.1")])
        initialState).outcome = .response 500 (.error noneTypeAttrMsg) := by
  have h := c3_disabled_no_network ⟨false, .failure "x"⟩ "t"
      (.dict [("control_id", some "A.8.1")]) initialState rfl
  exact ⟨h.1, h.2.2.2.1 [("control_id", some "A.8.1")],
    (h.2.2.2.2 [("control_id", some "A.8.1")] "A.8.1"
      ⟨"User endpoint devices", "Technological"⟩ rfl rfl).1,
    (h.2.2.2.2 [("control_id", some "A.8.1")] "A.8.1"
      ⟨"User endpoint devices", "Technological"⟩ rfl rfl).2⟩

/-- C4: an assess request with a catalogue control id and a working adapter
returning non-empty text yields HTTP 200 with that non-empty assessment
text, appends exactly one AssessmentRecord carrying the requested id to the
assessments log, and leaves the chat history unchanged. -/
theorem c4_assess_valid_success (env : Env) (now : String)
    (fields : List (String × Option String)) (st : ServerState)
    (cid : String) (c : Control) (text : String)
    (hkey : env.hasKey = true) (hres : env.callResult = .success text) (hne : text ≠ "")
    (hcid : getField fields "control_id" = some cid)
    (hc : st.controls.lookup cid = some c) :
    (assess_control env now (.dict fields) st).outcome
      = .response 200 (.payload "assessment" text) ∧
    text ≠ "" ∧
    (assess_control env now (.dict fields) st).state.assessments
      = st.assessments ++ [⟨cid, now, text⟩] ∧
    (assess_control env now (.dict fields) st).state.chat_history = st.chat_history := by
  refine ⟨?_, hne, ?_, ?_⟩ <;> simp only [assess_control, hcid, hc, hkey, hres] <;> rfl

/-- C4, witness: the theorem evaluated on control id A.8.1 with the adapter
answering "Guide text". -/
theorem c4_witness :
    (assess_control ⟨true, .success "Guide text"⟩ "2024-01-01"
        (.dict [("control_id", some "A.8.1")]) initialState).outcome
      = .response 200 (.payload "assessment" "Guide text") ∧
    ("Guide text" : String) ≠ "" ∧
    (assess_control ⟨true, .success "Guide text"⟩ "2024-01-01"
        (.dict [("control_id", some "A.8.1")]) initialState).state.assessments
      = initialState.assessments ++ [⟨"A.8.1", "2024-01-01", "Guide text"⟩] ∧
    (assess_control ⟨true, .success "Guide text"⟩ "2024-01-01"
        (.dict [("control_id", some "A.8.1")]) initialState).state.chat_history
      = initialState.chat_history :=
  c4_assess_valid_success _ _ _ _ "A.8.1" ⟨"User endpoint devices", "Technological"⟩
    "Guide text" rfl rfl (by decide) rfl rfl

/-- C5: an assess request whose control_id is not a key of the catalogue
returns HTTP 400 with an error field and leaves the whole server state,
interaction log included, unchanged. -/
theorem c5_assess_invalid (env : Env) (now : String)
    (fields : List (String × Option String)) (st : ServerState)
    (hinv : ∀ cid, getField fields "control_id" = some cid → st.controls.lookup cid = none) :
    (∃ msg, (assess_control env now (.dict fields) st).outcome = .response 400 (.error msg)) ∧
    (assess_control env now (.dict fields) st).state = st :=
  ⟨⟨_, (assess_invalid_id env now fields st hinv).1⟩,
   (assess_invalid_id env now fields st hinv).2.1⟩

/-- C5, witness: the theorem evaluated on the non-catalogue id Z.9.9 from
the initial state. -/
theorem c5_witness :
    (∃ msg, (assess_control ⟨true, .success "ok"⟩ "t" (.dict [("control_id", some "Z.9.9")])
        initialState).outcome = .response 400 (.error msg)) ∧
    (assess_control ⟨true, .success "ok"⟩ "t" (.dict [("control_id", some "Z.9.9")])
        initialState).state = initialState :=
  c5_assess_invalid _ _ _ _ (by intro cid h; injection h with h2; subst h2; rfl)

/-- C6: across all inputs, assess mutates at most the assessments log
(append only) and never the chat history or the catalogue; chat mutates at
most the chat history (append only) and never the assessments or the
catalogue; gap_analysis never mutates the state at all. -/
theorem c6_side_effects (env : Env) (now : String) (body : ReqBody) (st : ServerState) :
    ((assess_control env now body st).state.controls = st.controls ∧
     (assess_control env now body st).state.chat_history = st.chat_history ∧
     ∃ tail, (assess_control env now body st).state.assessments = st.assessments ++ tail) ∧
    ((chat env now body st).state.controls = st.controls ∧
     (chat env now body st).state.assessments = st.assessments ∧
     ∃ tail, (chat env now body st).state.chat_history = st.chat_history ++ tail) ∧
    (gap_analysis env body st).state = st := by
  refine ⟨?_, ?_, gap_state_eq env body st⟩
  · rcases assess_state_cases env now body st with h1 | ⟨cid, text, _, h1⟩
    · rw [h1]; exact ⟨rfl, rfl, [], by simp⟩
    · rw [h1]; exact ⟨rfl, rfl, [⟨cid, now, text⟩], rfl⟩
  · rcases chat_state_cases env now body st with h1 | ⟨msg, text, h1⟩
    · rw [h1]; exact ⟨rfl, rfl, [], by simp⟩
    · rw [h1]; exact ⟨rfl, rfl, [⟨now, msg, text⟩], rfl⟩

/-- C7: whenever assess invokes the adapter it passes a single user-role
message, model llama-3.3-70b-versatile, temperature 0.7 and max tokens 1024;
whenever gap_analysis invokes it, model llama-3.1-70b-versatile, temperature
0.5 and max tokens 1500; the two model identifiers differ, preserving the
asymmetry. -/
theorem c7_adapter_arguments (env : Env) (now : String) (body : ReqBody) (st : ServerState) :
    (∀ ac, (assess_control env now body st).call = some ac →
       ac.model = "llama-3.3-70b-versatile" ∧ ac.temperature = 7/10 ∧ ac.max_tokens = 1024 ∧
       ∃ p, ac.messages = [⟨"user", some p⟩]) ∧
    (∀ ac, (gap_analysis env body st).call = some ac →
       ac.model = "llama-3.1-70b-versatile" ∧ ac.temperature = 1/2 ∧ ac.max_tokens = 1500 ∧
       ∃ p, ac.messages = [⟨"user", some p⟩]) ∧
    ("llama-3.3-70b-versatile" : String) ≠ "llama-3.1-70b-versatile" := by
  refine ⟨?_, ?_, by decide⟩
  · intro ac hac
    rcases assess_call_cases env now body st with h | ⟨p, h⟩
    · rw [hac] at h; simp at h
    · rw [hac] at h
      have hx := Option.some.inj h
      subst hx
      exact ⟨rfl, rfl, rfl, p, rfl⟩
  · intro ac hac
    rcases gap_call_cases env body st with h | ⟨p, h⟩
    · rw [hac] at h; simp at h
    · rw [hac] at h
      have hx := Option.some.inj h
      subst hx
      exact ⟨rfl, rfl, rfl, p, rfl⟩

/-- The adapter call made by assess on control A.8.1, used as the C7 witness value. -/
def c7CallWitness : AdapterCall :=
  ⟨[⟨"user", some (assessPrompt "A.8.1" ⟨"User endpoint devices", "Technological"⟩)⟩],
   "llama-3.3-70b-versatile", 7/10, 1024⟩

/-- C7, witness: the theorem applied to the concrete adapter call that
assess performs for control A.8.1. -/
theorem c7_witness :
    c7CallWitness.model = "llama-3.3-70b-versatile" ∧ c7CallWitness.temperature = 7/10 ∧
    c7CallWitness.max_tokens = 1024 ∧ ∃ p, c7CallWitness.messages = [⟨"user", some p⟩] :=
  (c7_adapter_arguments ⟨true, .success "ok"⟩ "t"
      (.dict [("control_id", some "A.8.1")]) initialState).1 c7CallWitness rfl

/-- C8: in every reachable server state the catalogue equals the startup
catalogue (it is never modified at runtime), and every stored
AssessmentRecord has a control_id that is a key of that catalogue. -/
theorem c8_invariant (st : ServerState) (h : Reachable st) :
    st.controls = ISO_CONTROLS ∧
    ∀ r ∈ st.assessments, (st.controls.lookup r.control_id).isSome := by
  have h1 := reachable_controls_eq h
  have h2 := reachable_assessments_valid h
  exact ⟨h1, by rw [h1]; exact h2⟩

/-- C8, witness: the invariant evaluated at the state reached by one
successful assess call on A.5.1 from the initial state. -/
theorem c8_witness :
    (assess_control ⟨true, .success "Sample"⟩ "t0" (.dict [("control_id", some "A.5.1")])
        initialState).state.controls = ISO_CONTROLS ∧
    ∀ r ∈ (assess_control ⟨true, .success "Sample"⟩ "t0" (.dict [("control_id", some "A.5.1")])
        initialState).state.assessments,
      ((assess_control ⟨true, .success "Sample"⟩ "t0" (.dict [("control_id", some "A.5.1")])
        initialState).state.controls.lookup r.control_id).isSome :=
  c8_invariant _ (Relation.ReflTransGen.single
    (Step.stepAssess ⟨true, .success "Sample"⟩ "t0" (.dict [("control_id", some "A.5.1")])
      initialState))

/-- C9: in every reachable state, GET /api/controls returns exactly the
catalogue entries as id/name/category triples, each exactly once, in the
insertion order of the catalogue, and the answer is identical across any two
calls (in any two reachable states). -/
theorem c9_controls_listing (st st2 : ServerState) (h : Reachable st) (h2 : Reachable st2) :
    get_controls st = ISO_CONTROLS.map (fun p => ⟨p.1, p.2.name, p.2.category⟩) ∧
    get_controls st = get_controls st2 ∧
    (get_controls st).map ControlEntry.id = ISO_CONTROLS.map Prod.fst ∧
    ((get_controls st).map ControlEntry.id).Nodup := by
  have e1 : get_controls st = ISO_CONTROLS.map (fun p => ⟨p.1, p.2.name, p.2.category⟩) := by
    unfold get_controls
    rw [reachable_controls_eq h]
  have e2 : get_controls st2 = ISO_CONTROLS.map (fun p => ⟨p.1, p.2.name, p.2.category⟩) := by
    unfold get_controls
    rw [reachable_controls_eq h2]
  refine ⟨e1, ?_, ?_, ?_⟩
  · rw [e1, e2]
  · rw [e1]; decide
  · rw [e1]; decide

/-- C9, witness: the listing property evaluated at the initial state. -/
theorem c9_witness :
    get_controls initialState = ISO_CONTROLS.map (fun p => ⟨p.1, p.2.name, p.2.category⟩) ∧
    get_controls initialState = get_controls initialState ∧
    (get_controls initialState).map ControlEntry.id = ISO_CONTROLS.map Prod.fst ∧
    ((get_controls initialState).map ControlEntry.id).Nodup :=
  c9_controls_listing initialState initialState Relation.ReflTransGen.refl
    Relation.ReflTransGen.refl

/-- C10, counterexample: for a request body that does not parse as a JSON
object, the chat handler does not proceed to invoke the adapter (no call is
recorded) and produces no HTTP response of its own: data.get raises and the
exception escapes, so "for every request body" is too strong. -/
theorem c10_counterexample :
    (chat ⟨true, .success "ok"⟩ "t" .nonDict initialState).call = none ∧
    isResponse (chat ⟨true, .success "ok"⟩ "t" .nonDict initialState).outcome = false :=
  ⟨rfl, rfl⟩

/-- C10, amended: for every request body that parses as a JSON object,
including one lacking the message field, the chat handler performs no
validation and has no 400 path: it returns either HTTP 200 with a response
or HTTP 500 with an error, and whenever the client is configured it invokes
the adapter with the extracted message value (None when absent) as the user
content. -/
theorem c10_chat_no_validation (env : Env) (now : String)
    (fields : List (String × Option String)) (st : ServerState) :
    (∃ s e, (chat env now (.dict fields) st).outcome = .response s e ∧ (s = 200 ∨ s = 500)) ∧
    (env.hasKey = true →
      (chat env now (.dict fields) st).call =
        some ⟨[⟨"system", some chatSystemPrompt⟩, ⟨"user", getField fields "message"⟩],
              "llama-3.3-70b-versatile", 7/10, 1024⟩) := by
  constructor
  · rcases chat_outcome_cases env now fields st with ⟨t, h⟩ | ⟨m, h⟩
    · exact ⟨200, _, h, Or.inl rfl⟩
    · exact ⟨500, _, h, Or.inr rfl⟩
  · intro hkey
    dsimp only [chat]
    rw [hkey]
    rcases hr : env.callResult with text | msg <;> rfl

/-- C10, witness: the amended theorem evaluated on an empty JSON object (no
message field) with a configured client. -/
theorem c10_witness :
    (∃ s e, (chat ⟨true, .success "hello"⟩ "t" (.dict []) initialState).outcome
        = .response s e ∧ (s = 200 ∨ s = 500)) ∧
    (chat ⟨true, .success "hello"⟩ "t" (.dict []) initialState).call =
      some ⟨[⟨"system", some chatSystemPrompt⟩, ⟨"user", getField [] "message"⟩],
            "llama-3.3-70b-versatile", 7/10, 1024⟩ :=
  ⟨(c10_chat_no_validation ⟨true, .success "hello"⟩ "t" [] initialState).1,
   (c10_chat_no_validation ⟨true, .success "hello"⟩ "t" [] initialState).2 rfl⟩

end Iso27001

